import Mathlib

/-!
Shallow embedding of the keyboard-tracking core of `python/my_app.py`:
backend selection (`KeyboardTracking.create`), the pynput and macOS Quartz
trackers (`start`/`stop` and the globals `is_tracking`, `keyboard_events`
they mutate), the WebSocket command handling in `websocket_handler`, the
connect-time status / event-replay messages, and the `broadcast_event`
fan-out over the connected-client set.

Events are abstracted by identifiers (`KeyEvent := Nat`); the claims under
study concern only the event log as an ordered collection, never the
fields of an individual event.
-/

/-- Abstract key event; the dict payload built in `_on_key_press` and
friends is irrelevant to the properties proved here. -/
abbrev KeyEvent := Nat

/-- Which tracker class `KeyboardTracking.create` instantiates
(`my_app.py` lines 82-103): `PynputKeyboardTracking`,
`MacOSKeyboardTracking`, or `DummyKeyboardTracking`. -/
inductive BackendKind
  | pynput
  | quartz
  | dummy
deriving DecidableEq, Repr

/-- `KeyboardTracking.create` (`my_app.py` lines 82-103) as a pure function
of the lowercased `FORCE_KEYBOARD_MODE` value and the probe results
`is_module_available("pynput")`, `IS_MACOS`, `is_module_available("Quartz")`.
The empty string models an unset override. Note that any override value
other than `"pynput"` and `"quartz"` falls through to the auto-detection
branch of the Python `if`/`elif` chain. -/
def KeyboardTracking.create (forceMode : String)
    (pynputAvailable isMacos quartzAvailable : Bool) : BackendKind :=
  if forceMode = "pynput" then
    if pynputAvailable then .pynput else .dummy
  else if forceMode = "quartz" then
    if isMacos && quartzAvailable then .quartz else .dummy
  else
    if pynputAvailable then .pynput
    else if isMacos && quartzAvailable then .quartz
    else .dummy

/-- The `available` attribute of the freshly constructed tracker, which
`my_app.py` line 331 copies into the module global `KEYBOARD_AVAILABLE`.
`DummyKeyboardTracking.__init__` sets it to `False` (line 109); the pynput
and Quartz constructors re-run the import that `create` just probed, so
they set it to `True` in every state in which `create` selects them (the
Quartz constructor additionally imports AppKit, which ships together with
Quartz in the pyobjc distribution). -/
def BackendKind.availableFlag : BackendKind → Bool
  | .dummy => false
  | .pynput => true
  | .quartz => true

/-- State touched by `PynputKeyboardTracking`: its own `available` and
`listener` attributes plus the module globals `is_tracking` and
`keyboard_events`. -/
structure PynputState where
  available : Bool
  isTracking : Bool
  hasListener : Bool
  events : List KeyEvent
deriving DecidableEq, Repr

/-- `PynputKeyboardTracking.start` (`my_app.py` lines 131-148).
`listenerRaises` models an exception raised by the
`self.keyboard.Listener(...)` construction inside the `try` block; the
clearing `keyboard_events = []` has already executed at that point, and
the `except` branch returns `False` with `is_tracking` untouched. -/
def PynputKeyboardTracking.start (listenerRaises : Bool) (s : PynputState) :
    Bool × PynputState :=
  if !s.available || s.isTracking then (false, s)
  else if listenerRaises then (false, { s with events := [] })
  else (true, { s with events := [], hasListener := true, isTracking := true })

/-- `PynputKeyboardTracking.stop` (`my_app.py` lines 150-161). There is no
`try` in this method: `stopRaises` models `self.listener.stop()` raising,
in which case the exception propagates to the caller (`.error`) before any
of `self.listener = None` / `is_tracking = False` executes. -/
def PynputKeyboardTracking.stop (stopRaises : Bool) (s : PynputState) :
    Except PynputState (Bool × PynputState) :=
  if !s.isTracking then .ok (false, s)
  else if s.hasListener then
    if stopRaises then .error s
    else .ok (true, { s with hasListener := false, isTracking := false })
  else .ok (false, s)

/-- State touched by `MacOSKeyboardTracking`: its `available` and
`event_tap` attributes (the run-loop source and thread follow the tap and
are not tracked separately) plus the globals `is_tracking` and
`keyboard_events`. -/
structure MacOSState where
  available : Bool
  isTracking : Bool
  hasTap : Bool
  events : List KeyEvent
deriving DecidableEq, Repr

/-- `MacOSKeyboardTracking.start` (`my_app.py` lines 216-302).
`keyboard_events = []` is the first statement of the `try` block, so both
failure modes leave the log cleared: `raisesExc` models an exception at
`CGEventTapCreate` (caught at line 298, returns `False`), `tapCreateNull`
the null-handle path of lines 267-269 (assigns `None` to `self.event_tap`,
prints the accessibility hint, returns `False`). -/
def MacOSKeyboardTracking.start (tapCreateNull raisesExc : Bool) (s : MacOSState) :
    Bool × MacOSState :=
  if !s.available || s.isTracking then (false, s)
  else if raisesExc then (false, { s with events := [] })
  else if tapCreateNull then (false, { s with events := [], hasTap := false })
  else (true, { s with events := [], hasTap := true, isTracking := true })

/-- `MacOSKeyboardTracking.stop` (`my_app.py` lines 304-327).
`tapDisableRaises` models `CGEventTapEnable` raising: that exception is
caught only by the outer `except` (line 325), which returns `False` with
`self.event_tap` and `is_tracking` untouched. `runLoopStopRaises` models
`CFRunLoopStop` raising: that call sits in its own inner `try` (lines
314-318) whose handler just prints a warning, so the method still clears
the tap, sets `is_tracking = False` and returns `True`. -/
def MacOSKeyboardTracking.stop (tapDisableRaises _runLoopStopRaises : Bool)
    (s : MacOSState) : Bool × MacOSState :=
  if !s.isTracking || !s.hasTap then (false, s)
  else if tapDisableRaises then (false, s)
  else (true, { s with hasTap := false, isTracking := false })

/-- One JSON message sent by the server to an observer, restricted to the
shapes `websocket_handler` produces (`my_app.py` lines 382-441). -/
inductive Reply
  | status (isTracking keyboardAvailable : Bool)
  | initEvents (events : List KeyEvent)
  | commandResponse (command : String) (success : Bool) (message : String)
  | events (events : List KeyEvent) (isTracking : Bool)
deriving DecidableEq, Repr

/-- The `"type"` field of the JSON object each `Reply` serializes to. -/
def Reply.type : Reply → String
  | .status _ _ => "status"
  | .initEvents _ => "init_events"
  | .commandResponse _ _ _ => "command_response"
  | .events _ _ => "events"

/-- The three command names `websocket_handler` recognizes. -/
inductive Command
  | start_tracking
  | stop_tracking
  | get_events
deriving DecidableEq, Repr

/-- Processing of one recognized command by `websocket_handler`
(`my_app.py` lines 402-441) when the selected tracker is
`PynputKeyboardTracking`. Returns the replies sent, the resulting state,
and whether the tracker method (`start_keyboard_tracking` /
`stop_keyboard_tracking`) was invoked; `.error` is an exception escaping
the per-message `try` (only possible here via `PynputKeyboardTracking.stop`
raising), which aborts the receive loop before any reply is sent. -/
def handleCommandPynput (keyboardAvailable listenerRaises stopRaises : Bool)
    (cmd : Command) (s : PynputState) :
    Except PynputState (List Reply × PynputState × Bool) :=
  match cmd with
  | .start_tracking =>
    if keyboardAvailable then
      let r := PynputKeyboardTracking.start listenerRaises s
      .ok ([Reply.commandResponse "start_tracking" r.1
              (if r.1 then "Keyboard tracking started"
               else "Keyboard tracking already running")], r.2, true)
    else
      .ok ([Reply.commandResponse "start_tracking" false
              "Keyboard tracking not available on this platform"], s, false)
  | .stop_tracking =>
    if keyboardAvailable then
      match PynputKeyboardTracking.stop stopRaises s with
      | .error s2 => .error s2
      | .ok r =>
        .ok ([Reply.commandResponse "stop_tracking" r.1
                (if r.1 then "Keyboard tracking stopped"
                 else "Keyboard tracking not running")], r.2, true)
    else
      .ok ([Reply.commandResponse "stop_tracking" false
              "Keyboard tracking not available on this platform"], s, false)
  | .get_events =>
    .ok ([Reply.events s.events s.isTracking], s, false)

/-- The `start_tracking` branch of `websocket_handler` (`my_app.py` lines
402-417) when the selected tracker is `MacOSKeyboardTracking`. Same reply
construction as the pynput case: the message depends only on the boolean
returned by `start`. -/
def handleStartTrackingMacOS (keyboardAvailable tapCreateNull raisesExc : Bool)
    (s : MacOSState) : List Reply × MacOSState × Bool :=
  if keyboardAvailable then
    let r := MacOSKeyboardTracking.start tapCreateNull raisesExc s
    ([Reply.commandResponse "start_tracking" r.1
        (if r.1 then "Keyboard tracking started"
         else "Keyboard tracking already running")], r.2, true)
  else
    ([Reply.commandResponse "start_tracking" false
        "Keyboard tracking not available on this platform"], s, false)

/-- The messages `websocket_handler` sends right after registering a new
observer (`my_app.py` lines 380-393): the status object, then the
`init_events` replay, the latter guarded by
`if is_tracking and keyboard_events:` (Python list truthiness, so an empty
log suppresses the replay). -/
def onConnect (keyboardAvailable isTracking : Bool) (events : List KeyEvent) :
    List Reply :=
  Reply.status isTracking keyboardAvailable ::
    (if isTracking && !events.isEmpty then [Reply.initEvents events] else [])

/-- One inbound WebSocket message, classified by how `json.loads` and the
subsequent `data.get` treat it. -/
inductive InMessage
  | notJson
  | jsonNonObject
  | jsonObject (command : Option String)
deriving DecidableEq, Repr

/-- Outcome of the body of `async for message in websocket` for one
message: the loop either continues (with the listed replies sent) or is
aborted by an exception reaching the outer handler, which unregisters the
client and ends the connection. -/
inductive LoopStep
  | continueLoop (sent : List Reply) (s : PynputState)
  | connectionTerminated (s : PynputState)
deriving DecidableEq, Repr

/-- The per-message body of the receive loop in `websocket_handler`
(`my_app.py` lines 396-446), pynput tracker. `json.loads` failure raises
`json.JSONDecodeError`, which the inner `except` catches (`pass`);
`data.get("command")` on a decoded non-object (list, string, number,
boolean, null) raises `AttributeError`, which nothing in the loop catches,
so it propagates to the outer handler and the connection dies; an object
with a missing or unrecognized `command` only hits the logging `else`. -/
def processMessage (keyboardAvailable listenerRaises stopRaises : Bool)
    (m : InMessage) (s : PynputState) : LoopStep :=
  match m with
  | .notJson => .continueLoop [] s
  | .jsonNonObject => .connectionTerminated s
  | .jsonObject c =>
    match c with
    | none => .continueLoop [] s
    | some cmd =>
      if cmd = "start_tracking" then
        match handleCommandPynput keyboardAvailable listenerRaises stopRaises
            .start_tracking s with
        | .ok r => .continueLoop r.1 r.2.1
        | .error s2 => .connectionTerminated s2
      else if cmd = "stop_tracking" then
        match handleCommandPynput keyboardAvailable listenerRaises stopRaises
            .stop_tracking s with
        | .ok r => .continueLoop r.1 r.2.1
        | .error s2 => .connectionTerminated s2
      else if cmd = "get_events" then
        match handleCommandPynput keyboardAvailable listenerRaises stopRaises
            .get_events s with
        | .ok r => .continueLoop r.1 r.2.1
        | .error s2 => .connectionTerminated s2
      else .continueLoop [] s

/-- A connected WebSocket client as `broadcast_event` sees it: an identity
and whether `await client.send(...)` raises for it during this broadcast. -/
structure Client where
  id : Nat
  sendFails : Bool
deriving DecidableEq, Repr

/-- The `for client in ws_connected_clients:` loop of `broadcast_event`
(`my_app.py` lines 63-69): every client gets a send attempt (first
component, in iteration order); clients whose send raises are collected
into `disconnected_clients` (second component). -/
def sendAll : List Client → List Nat × List Client
  | [] => ([], [])
  | c :: rest =>
    (c.id :: (sendAll rest).1,
     if c.sendFails then c :: (sendAll rest).2 else (sendAll rest).2)

/-- `broadcast_event` (`my_app.py` lines 55-73): early return on an empty
client set; otherwise run the send loop over the whole set and only then
remove each member of `disconnected_clients` from the registry. Returns
the ids attempted and the registry afterwards. -/
def broadcast_event (clients : List Client) : List Nat × List Client :=
  if clients.isEmpty then ([], clients)
  else
    ((sendAll clients).1,
     clients.filter (fun c => decide (c ∉ (sendAll clients).2)))

/-! ## Claim C1: backend selection policy -/

/-- Claim C1 (as stated) is false: the override value `"bogus"` names an
unsupported backend, yet on a host where pynput probes true the factory
returns the pynput tracker (with `available = true`), not the dummy
fallback — only the recognized values `"pynput"` and `"quartz"` get the
probe-or-dummy treatment, every other value falls through to
auto-detection. -/
theorem create_unsupported_override_cex :
    KeyboardTracking.create "bogus" true false false = BackendKind.pynput ∧
    BackendKind.availableFlag (KeyboardTracking.create "bogus" true false false)
      = true := by
  constructor <;> rfl

/-- Claim C1 (amended): if the override is `"pynput"`, the pynput tracker
is used when pynput probes true, else the dummy; if `"quartz"`, the Quartz
tracker is used when on macOS with Quartz importable, else the dummy; any
other override value — including an unsupported backend name — behaves
exactly like no override and runs auto-detection (pynput preferred, then
Quartz on macOS, else the dummy, whose `available` flag is false). -/
theorem create_selection_policy (pynputAvailable isMacos quartzAvailable : Bool)
    (m : String) :
    KeyboardTracking.create "pynput" pynputAvailable isMacos quartzAvailable
        = (if pynputAvailable then BackendKind.pynput else BackendKind.dummy) ∧
    KeyboardTracking.create "quartz" pynputAvailable isMacos quartzAvailable
        = (if isMacos && quartzAvailable then BackendKind.quartz
           else BackendKind.dummy) ∧
    (m ≠ "pynput" → m ≠ "quartz" →
      KeyboardTracking.create m pynputAvailable isMacos quartzAvailable
        = (if pynputAvailable then BackendKind.pynput
           else if isMacos && quartzAvailable then BackendKind.quartz
           else BackendKind.dummy)) ∧
    BackendKind.availableFlag BackendKind.dummy = false := by
  refine ⟨?_, ?_, fun h1 h2 => ?_, rfl⟩
  · cases pynputAvailable <;> rfl
  · cases isMacos <;> cases quartzAvailable <;> rfl
  · simp [KeyboardTracking.create, h1, h2]

/-- Concrete instance of `create_selection_policy`: the unsupported
override `"xyz"` auto-detects, here landing on the Quartz tracker. -/
theorem create_selection_policy_witness :
    KeyboardTracking.create "xyz" false true true = BackendKind.quartz := by
  have h := (create_selection_policy false true true "xyz").2.2.1
    (by decide) (by decide)
  simpa using h

/-! ## Claim C8: broadcast fan-out -/

/-- In the send loop, every client in the set gets a send attempt, in
iteration order. -/
theorem sendAll_fst (cs : List Client) :
    (sendAll cs).1 = cs.map (fun c => c.id) := by
  induction cs with
  | nil => rfl
  | cons c rest ih => simp [sendAll, ih]

/-- The `disconnected_clients` set collected by the send loop is exactly
the clients whose send raised. -/
theorem sendAll_snd (cs : List Client) :
    (sendAll cs).2 = cs.filter (fun c => c.sendFails) := by
  induction cs with
  | nil => rfl
  | cons c rest ih => cases h : c.sendFails <;> simp [sendAll, ih, h]

/-- Claim C8: `broadcast_event` attempts the send to every client in the
set — a failure for one client never prevents the attempt for the others,
and the function itself always returns (every per-send exception is
swallowed) — and the registry afterwards is the original set minus exactly
the clients whose send failed, the removals happening only after the
iteration over the set completed. -/
theorem broadcast_event_spec (clients : List Client) :
    (broadcast_event clients).1 = clients.map (fun c => c.id) ∧
    (broadcast_event clients).2 = clients.filter (fun c => !c.sendFails) := by
  by_cases hE : clients.isEmpty
  · have : clients = [] := by simpa [List.isEmpty_iff] using hE
    subst this
    exact ⟨rfl, rfl⟩
  · unfold broadcast_event
    rw [if_neg hE]
    refine ⟨sendAll_fst clients, ?_⟩
    rw [sendAll_snd]
    apply List.filter_congr
    intro c hc
    cases h : c.sendFails
    · simp [List.mem_filter, h]
    · simp [List.mem_filter, h, hc]

/-! ## Claim C9: connect-time status and replay -/

/-- Claim C9 (as stated) is false: with tracking active and an empty event
log, only the status message is sent — the `init_events` replay is
suppressed by the `if is_tracking and keyboard_events:` guard, whereas the
claim requires it to be sent even for an empty log. -/
theorem onConnect_emptyLog_cex :
    onConnect true true [] = [Reply.status true true] := rfl

/-- Claim C9 (amended): on observer connect the status message
(`isTracking`, `keyboardAvailable`) always comes first, and an
`init_events` replay of the event log follows exactly when tracking is
active and the log is non-empty; when tracking is inactive, or the log is
empty, no `init_events` message is sent. -/
theorem onConnect_replies (kb tr : Bool) (evs : List KeyEvent) :
    (onConnect kb tr evs).head? = some (Reply.status tr kb) ∧
    (tr = true → evs ≠ [] →
      onConnect kb tr evs = [Reply.status tr kb, Reply.initEvents evs]) ∧
    (tr = false → onConnect kb tr evs = [Reply.status tr kb]) ∧
    (evs = [] → onConnect kb tr evs = [Reply.status tr kb]) := by
  refine ⟨rfl, fun h1 h2 => ?_, fun h => ?_, fun h => ?_⟩
  · subst h1
    cases evs with
    | nil => exact absurd rfl h2
    | cons a as => simp [onConnect]
  · subst h
    simp [onConnect]
  · subst h
    simp [onConnect]

/-- Concrete instance of `onConnect_replies`: tracking active with a
one-event log yields the status message followed by the replay. -/
theorem onConnect_replies_witness :
    onConnect true true [7] = [Reply.status true true, Reply.initEvents [7]] :=
  (onConnect_replies true true [7]).2.1 rfl (by decide)

/-! ## Claim C3: session state machine under start and stop commands -/

/-- The state after `websocket_handler` processes one command on the
pynput tracker with a benign backend (no listener failures); an aborted
loop keeps the state at the point of the exception. -/
def sessionStep (cmd : Command) (s : PynputState) : PynputState :=
  match handleCommandPynput true false false cmd s with
  | .ok r => r.2.1
  | .error s2 => s2

/-- Processing any command preserves the session invariant used below:
the tracker stays available and whenever tracking is active a listener is
installed, so the invariant holds along every sequence of commands. -/
theorem sessionStep_preserves_inv (cmd : Command) (s : PynputState)
    (hA : s.available = true)
    (hInv : s.isTracking = true → s.hasListener = true) :
    (sessionStep cmd s).available = true ∧
    ((sessionStep cmd s).isTracking = true →
      (sessionStep cmd s).hasListener = true) := by
  cases cmd with
  | start_tracking =>
    cases hT : s.isTracking with
    | false =>
      simp [sessionStep, handleCommandPynput, PynputKeyboardTracking.start,
        hA, hT]
    | true =>
      simp [sessionStep, handleCommandPynput, PynputKeyboardTracking.start,
        hA, hT, hInv hT]
  | stop_tracking =>
    cases hT : s.isTracking with
    | false =>
      simp [sessionStep, handleCommandPynput, PynputKeyboardTracking.stop,
        hA, hT]
    | true =>
      have hL := hInv hT
      simp [sessionStep, handleCommandPynput, PynputKeyboardTracking.stop,
        hA, hT, hL]
  | get_events =>
    constructor
    · simp [sessionStep, handleCommandPynput, hA]
    · simpa [sessionStep, handleCommandPynput] using hInv

/-- Claim C3: on a session whose backend starts successfully (available
tracker, listener installed whenever tracking — an invariant every command
preserves, see `sessionStep_preserves_inv`): `start_tracking` from Idle
moves to Tracking and reports success; `stop_tracking` from Tracking moves
to Idle and reports success; `start_tracking` while Tracking leaves the
state unchanged and returns success=false with the already-running
message; `stop_tracking` while Idle leaves the state unchanged and returns
success=false with the not-running message. -/
theorem trackingSession_start_stop (s : PynputState)
    (hA : s.available = true)
    (hInv : s.isTracking = true → s.hasListener = true) :
    (s.isTracking = false →
      handleCommandPynput true false false Command.start_tracking s =
        .ok ([Reply.commandResponse "start_tracking" true
                "Keyboard tracking started"],
             { s with events := [], hasListener := true, isTracking := true },
             true)) ∧
    (s.isTracking = true →
      handleCommandPynput true false false Command.stop_tracking s =
        .ok ([Reply.commandResponse "stop_tracking" true
                "Keyboard tracking stopped"],
             { s with hasListener := false, isTracking := false }, true)) ∧
    (s.isTracking = true →
      handleCommandPynput true false false Command.start_tracking s =
        .ok ([Reply.commandResponse "start_tracking" false
                "Keyboard tracking already running"], s, true)) ∧
    (s.isTracking = false →
      handleCommandPynput true false false Command.stop_tracking s =
        .ok ([Reply.commandResponse "stop_tracking" false
                "Keyboard tracking not running"], s, true)) := by
  refine ⟨fun hT => ?_, fun hT => ?_, fun hT => ?_, fun hT => ?_⟩
  · simp [handleCommandPynput, PynputKeyboardTracking.start, hA, hT]
  · have hL := hInv hT
    simp [handleCommandPynput, PynputKeyboardTracking.stop, hA, hT, hL]
  · simp [handleCommandPynput, PynputKeyboardTracking.start, hA, hT]
  · simp [handleCommandPynput, PynputKeyboardTracking.stop, hA, hT]

/-- Concrete instance of `trackingSession_start_stop`: starting from the
Idle state with a stale event log succeeds and moves to Tracking. -/
theorem trackingSession_start_stop_witness :
    handleCommandPynput true false false Command.start_tracking
        ⟨true, false, false, [9]⟩ =
      .ok ([Reply.commandResponse "start_tracking" true
              "Keyboard tracking started"],
           ⟨true, true, true, []⟩, true) :=
  (trackingSession_start_stop ⟨true, false, false, [9]⟩ rfl (by decide)).1 rfl

/-! ## Claim C4: availability gate in the command handler -/

/-- Claim C4: when `KEYBOARD_AVAILABLE` is false, both `start_tracking`
and `stop_tracking` yield a single command_response with success=false and
the not-available-on-this-platform message, the tracker methods are never
invoked (third component false), and the session state — `is_tracking` and
the event log included — is returned unchanged. -/
theorem keyboardUnavailable_gate (listenerRaises stopRaises : Bool)
    (s : PynputState) :
    handleCommandPynput false listenerRaises stopRaises
        Command.start_tracking s =
      .ok ([Reply.commandResponse "start_tracking" false
              "Keyboard tracking not available on this platform"], s, false) ∧
    handleCommandPynput false listenerRaises stopRaises
        Command.stop_tracking s =
      .ok ([Reply.commandResponse "stop_tracking" false
              "Keyboard tracking not available on this platform"], s, false) :=
  ⟨rfl, rfl⟩

/-! ## Claim C2: null tap handle reporting -/

/-- Claim C2 (as stated) is false: the command_response produced when
Quartz tap creation returns a null handle (left side: idle available
session, `tapCreateNull = true`) is byte-identical to the one produced in
the benign already-running case (right side: tracking session, tap
creation not attempted), because `websocket_handler` derives the message
solely from the boolean `start` returns — no PermissionDenied distinction
survives to the caller. -/
theorem macStart_nullTap_indistinguishable_cex :
    (handleStartTrackingMacOS true true false ⟨true, false, false, []⟩).1 =
      (handleStartTrackingMacOS true false false ⟨true, true, true, []⟩).1 := rfl

/-- Claim C2 (amended): when tap creation returns a null handle the
failure reaches the observer only as success=false with the message
"Keyboard tracking already running" — identical to the benign
already-running reply, hence NOT distinguishable from it — while it does
remain distinguishable from the BackendUnavailable reply sent when
`keyboardAvailable` is false. -/
theorem macStart_permission_reporting (s s2 : MacOSState)
    (hA : s.available = true) (hT : s.isTracking = false) :
    (handleStartTrackingMacOS true true false s).1 =
      [Reply.commandResponse "start_tracking" false
        "Keyboard tracking already running"] ∧
    (handleStartTrackingMacOS true true false s).1 =
      (handleStartTrackingMacOS true false false
        { s2 with isTracking := true, hasTap := true }).1 ∧
    (handleStartTrackingMacOS true true false s).1 ≠
      (handleStartTrackingMacOS false true false s).1 := by
  refine ⟨?_, ?_, ?_⟩
  · simp [handleStartTrackingMacOS, MacOSKeyboardTracking.start, hA, hT]
  · simp [handleStartTrackingMacOS, MacOSKeyboardTracking.start, hA, hT]
  · simp [handleStartTrackingMacOS, MacOSKeyboardTracking.start, hA, hT]

/-- Concrete instance of `macStart_permission_reporting`: the null-handle
failure on an idle available session reports the already-running text. -/
theorem macStart_permission_reporting_witness :
    (handleStartTrackingMacOS true true false ⟨true, false, false, [3]⟩).1 =
      [Reply.commandResponse "start_tracking" false
        "Keyboard tracking already running"] :=
  (macStart_permission_reporting ⟨true, false, false, [3]⟩
    ⟨true, false, false, []⟩ rfl rfl).1

/-! ## Claim C5: stop is best-effort only for part of the teardown -/

/-- Claim C5 (as stated) is false: on a tracking session, when disabling
the Quartz event tap raises, the exception is caught by the outer handler
of `stop`, which returns `False` with `is_tracking` still true — the
session stays in Tracking instead of transitioning to Idle. -/
theorem macStop_tapDisable_cex :
    MacOSKeyboardTracking.stop true false ⟨true, true, true, []⟩ =
      (false, ⟨true, true, true, []⟩) ∧
    (MacOSKeyboardTracking.stop true false
        ⟨true, true, true, []⟩).2.isTracking = true := by
  constructor <;> rfl

/-- Claim C5 (amended): only the run-loop teardown step is best-effort —
a `CFRunLoopStop` failure is caught, logged, and the session still moves
to Idle with `stop` returning success; but a failure while disabling the
event tap leaves the session in Tracking with `stop` returning `False`,
and on the pynput tracker a `listener.stop()` exception propagates to the
caller with the session likewise still Tracking. -/
theorem macStop_bestEffort (s : MacOSState) (sp : PynputState) (rl : Bool)
    (hT : s.isTracking = true) (hTap : s.hasTap = true)
    (hpT : sp.isTracking = true) (hpL : sp.hasListener = true) :
    MacOSKeyboardTracking.stop false rl s =
      (true, { s with hasTap := false, isTracking := false }) ∧
    MacOSKeyboardTracking.stop true rl s = (false, s) ∧
    PynputKeyboardTracking.stop true sp = .error sp := by
  refine ⟨?_, ?_, ?_⟩
  · simp [MacOSKeyboardTracking.stop, hT, hTap]
  · simp [MacOSKeyboardTracking.stop, hT, hTap]
  · simp [PynputKeyboardTracking.stop, hpT, hpL]

/-- Concrete instance of `macStop_bestEffort`: a run-loop-stop failure
still yields a successful transition to Idle. -/
theorem macStop_bestEffort_witness :
    MacOSKeyboardTracking.stop false true ⟨true, true, true, [4]⟩ =
      (true, ⟨true, false, false, [4]⟩) :=
  (macStop_bestEffort ⟨true, true, true, [4]⟩ ⟨true, true, true, []⟩ true
    rfl rfl rfl rfl).1

/-! ## Claim C6: malformed inbound messages -/

/-- Claim C6 (as stated) is false: a message that is valid JSON but not an
object (for instance the bare number `5`) makes `data.get("command")`
raise `AttributeError`, which the loop's `except json.JSONDecodeError`
does not catch, so the receive loop is aborted and the connection
terminated rather than the message being ignored. -/
theorem nonObjectJson_terminates_cex :
    processMessage true false false InMessage.jsonNonObject
        ⟨true, false, false, []⟩ =
      LoopStep.connectionTerminated ⟨true, false, false, []⟩ := rfl

/-- Claim C6 (amended): messages that fail JSON parsing, objects with no
`command` field, and objects with an unrecognized `command` are logged and
ignored with the receive loop continuing and the session untouched; but
valid JSON that is not an object raises out of the loop and terminates the
connection. -/
theorem malformedMessage_handling (kb lr sr : Bool) (s : PynputState)
    (c : String) :
    processMessage kb lr sr InMessage.notJson s = .continueLoop [] s ∧
    processMessage kb lr sr (InMessage.jsonObject none) s =
      .continueLoop [] s ∧
    (c ≠ "start_tracking" → c ≠ "stop_tracking" → c ≠ "get_events" →
      processMessage kb lr sr (InMessage.jsonObject (some c)) s =
        .continueLoop [] s) ∧
    processMessage kb lr sr InMessage.jsonNonObject s =
      .connectionTerminated s := by
  refine ⟨rfl, rfl, fun h1 h2 h3 => ?_, rfl⟩
  simp [processMessage, h1, h2, h3]

/-- Concrete instance of `malformedMessage_handling`: the unrecognized
command name "reset" is ignored without terminating the connection. -/
theorem malformedMessage_handling_witness :
    processMessage true false false (InMessage.jsonObject (some "reset"))
        ⟨true, false, false, []⟩ =
      LoopStep.continueLoop [] ⟨true, false, false, []⟩ :=
  (malformedMessage_handling true false false ⟨true, false, false, []⟩
    "reset").2.2.1 (by decide) (by decide) (by decide)

/-! ## Claim C7: reply shape per recognized command -/

/-- Claim C7 (as stated) is false: the reply to the recognized command
`get_events` has type "events" — it is not a command_response and carries
no `command`, `success` or `message` field. -/
theorem getEvents_reply_type_cex :
    handleCommandPynput true false false Command.get_events
        ⟨true, true, true, [1, 2]⟩ =
      .ok ([Reply.events [1, 2] true], ⟨true, true, true, [1, 2]⟩, false) ∧
    Reply.type (Reply.events [1, 2] true) ≠ "command_response" := by
  constructor
  · rfl
  · decide

/-- Claim C7 (amended): every recognized command yields exactly one reply;
for `start_tracking` and `stop_tracking` it is a command_response whose
`command` field equals the received command name and which carries
`success` and a message, while for `get_events` the single reply is of
type "events" carrying the event snapshot and the tracking flag. -/
theorem commandReply_shape (kb lr : Bool) (s : PynputState) :
    (∃ b m s2 c, handleCommandPynput kb lr false Command.start_tracking s =
        .ok ([Reply.commandResponse "start_tracking" b m], s2, c)) ∧
    (∃ b m s2 c, handleCommandPynput kb lr false Command.stop_tracking s =
        .ok ([Reply.commandResponse "stop_tracking" b m], s2, c)) ∧
    handleCommandPynput kb lr false Command.get_events s =
      .ok ([Reply.events s.events s.isTracking], s, false) := by
  refine ⟨?_, ?_, rfl⟩
  · cases kb
    · exact ⟨_, _, _, _, rfl⟩
    · exact ⟨_, _, _, _, rfl⟩
  · cases kb
    · exact ⟨_, _, _, _, rfl⟩
    · cases hT : s.isTracking
      · refine ⟨false, "Keyboard tracking not running", s, true, ?_⟩
        simp [handleCommandPynput, PynputKeyboardTracking.stop, hT]
      · cases hL : s.hasListener
        · refine ⟨false, "Keyboard tracking not running", s, true, ?_⟩
          simp [handleCommandPynput, PynputKeyboardTracking.stop, hT, hL]
        · refine ⟨true, "Keyboard tracking stopped",
            { s with hasListener := false, isTracking := false }, true, ?_⟩
          simp [handleCommandPynput, PynputKeyboardTracking.stop, hT, hL]

/-! ## Claim C10: a failed start has already cleared the event log -/

/-- Claim C10: starting from Idle on an available backend, a start that
fails — pynput listener construction raising, Quartz tap creation
returning null, or an exception inside the Quartz start — returns `False`
with `is_tracking` still false (the session stays Idle), yet
`keyboard_events` has already been reset to the empty list, erasing the
previous tracking period's buffered events. -/
theorem failedStart_clears_eventLog (sp : PynputState) (sm : MacOSState)
    (hpA : sp.available = true) (hpT : sp.isTracking = false)
    (hmA : sm.available = true) (hmT : sm.isTracking = false) :
    PynputKeyboardTracking.start true sp = (false, { sp with events := [] }) ∧
    MacOSKeyboardTracking.start true false sm =
      (false, { sm with events := [], hasTap := false }) ∧
    MacOSKeyboardTracking.start false true sm =
      (false, { sm with events := [] }) := by
  refine ⟨?_, ?_, ?_⟩ <;>
    simp [PynputKeyboardTracking.start, MacOSKeyboardTracking.start,
      hpA, hpT, hmA, hmT]

/-- Concrete instance of `failedStart_clears_eventLog`: a failing start on
an idle pynput session with one buffered event wipes the buffer. -/
theorem failedStart_clears_eventLog_witness :
    PynputKeyboardTracking.start true ⟨true, false, false, [5]⟩ =
      (false, ⟨true, false, false, []⟩) :=
  (failedStart_clears_eventLog ⟨true, false, false, [5]⟩
    ⟨true, false, false, [5]⟩ rfl rfl rfl rfl).1
